import Mathlib

/-
Verification development for the CareerGPT resume-analyzer backend.

The backend (src/backend/main.py, src/backend/gemini_engine.py) is shallowly
embedded below.  JSON values parsed from the generation service are modelled
by an inductive `Json` type; the external generation call is abstracted by a
`GenOutcome` parameter (success carries the parsed JSON, failure carries the
provider error text, exactly the two ways `analyze_resume` can come back);
the Supabase store is modelled as explicit table state threaded through each
handler, with upsert-on-conflict semantics ("conflict policy = overwrite")
for the `roadmap_progress` table.  Handlers return a `Resp` value: a 200
body, a raised HTTPException (status and detail), or an unhandled exception
that the framework surfaces as a plain 500.
-/

namespace CareerGPT

/-- An apostrophe character, used when reproducing prompt strings from the source. -/
def apos : String := String.singleton (Char.ofNat 39)

/-- JSON values as returned by `json.loads` in the engine. Numbers are modelled
as integers (every number the schema and the claims exercise is integral). -/
inductive Json where
  | null
  | bool (b : Bool)
  | num (n : Int)
  | str (s : String)
  | arr (elems : List Json)
  | obj (fields : List (String × Json))

/-- Comma-and-space separated concatenation, as Python uses when rendering
list and dict literals. -/
def commaSep : List String → String
  | [] => ""
  | [s] => s
  | s :: rest => s ++ ", " ++ commaSep rest

mutual
/-- Python `repr` of a JSON-shaped value (`None`, `True`, quoted strings,
bracketed lists, braced dicts). -/
def pyRepr : Json → String
  | .null => "None"
  | .bool true => "True"
  | .bool false => "False"
  | .num n => toString n
  | .str s => apos ++ s ++ apos
  | .arr xs => "[" ++ commaSep (pyReprList xs) ++ "]"
  | .obj fs => "\x7b" ++ commaSep (pyReprFields fs) ++ "\x7d"

/-- `repr` of each element of a list. -/
def pyReprList : List Json → List String
  | [] => []
  | x :: xs => pyRepr x :: pyReprList xs

/-- `repr` of each key/value pair of a dict. -/
def pyReprFields : List (String × Json) → List String
  | [] => []
  | (k, v) :: fs => (apos ++ k ++ apos ++ ": " ++ pyRepr v) :: pyReprFields fs
end

/-- Python `str()` of a JSON-shaped value: a string is itself, anything else
renders as its `repr` (in particular `str(None) = "None"`). -/
def pyStr : Json → String
  | .str s => s
  | j => pyRepr j

/-- Python `in` on strings: substring containment. -/
def containsSub (s pat : String) : Bool :=
  s.toList.tails.any (fun t => pat.toList.isPrefixOf t)

/-- First-match lookup in a dict's field list (Python dicts have unique keys,
so first-match equals dict lookup). -/
def lookupField : List (String × Json) → String → Option Json
  | [], _ => none
  | (k2, v) :: rest, k => if k2 == k then some v else lookupField rest k

/-- `d.get(k, default)` restricted to dict fields. -/
def dictGetD (fs : List (String × Json)) (k : String) (dflt : Json) : Json :=
  (lookupField fs k).getD dflt

/-- Python `x.get(k, default)`: defined on dicts, an `AttributeError`
(modelled as `none`) on every other value. -/
def pyDictGetD (j : Json) (k : String) (dflt : Json) : Option Json :=
  match j with
  | .obj fs => some (dictGetD fs k dflt)
  | _ => none

/-- Python `k in x` for a string key `k`: key membership on dicts, element
membership on lists, substring test on strings, `TypeError` (`none`) on the
rest. -/
def pyIn (k : String) (j : Json) : Option Bool :=
  match j with
  | .obj fs => some (fs.any (fun p => p.1 == k))
  | .arr xs => some (xs.any (fun v => match v with | .str s => s == k | _ => false))
  | .str s => some (containsSub s k)
  | _ => none

/-- Python `x[k]` for a string key: dict lookup (`KeyError` on absence),
`TypeError` otherwise — both exceptions modelled as `none`. -/
def pySubscript (j : Json) (k : String) : Option Json :=
  match j with
  | .obj fs => lookupField fs k
  | _ => none

/-- Python dict assignment `x[k] = v` on a field list: overwrite in place if
the key exists, append otherwise. -/
def pySetKeyFields (fs : List (String × Json)) (k : String) (v : Json) : List (String × Json) :=
  if fs.any (fun p => p.1 == k) then fs.map (fun p => if p.1 == k then (k, v) else p)
  else fs ++ [(k, v)]

/-- Python `int(x)` on a JSON-shaped value: integers unchanged, booleans to
0/1, numeric strings parsed (optional sign, surrounding whitespace), and a
`TypeError`/`ValueError` (`none`) on everything else. -/
def pyToInt : Json → Option Int
  | .num n => some n
  | .bool b => some (if b then 1 else 0)
  | .str s =>
      let t := s.trim
      if t.startsWith "-" then (t.drop 1).toNat?.map (fun n => -(n : Int))
      else if t.startsWith "+" then (t.drop 1).toNat?.map (fun n => (n : Int))
      else t.toNat?.map (fun n => (n : Int))
  | _ => none

/-- Python `for x in j`: lists yield their elements, strings their characters
(as one-character strings), dicts their keys; other values raise `TypeError`
(`none`). -/
def pyIter : Json → Option (List Json)
  | .arr xs => some xs
  | .str s => some (s.toList.map (fun c => Json.str (String.singleton c)))
  | .obj fs => some (fs.map (fun p => Json.str p.1))
  | _ => none

/-- Whether a JSON object contains a top-level key (false on non-objects). -/
def hasKey (j : Json) (k : String) : Bool :=
  match j with
  | .obj fs => fs.any (fun p => p.1 == k)
  | _ => false

/-- Outcome of the structured generation call in `analyze_resume`
(gemini_engine.py lines 77-93): either `json.loads(response.text)` succeeds
with a parsed value, or some exception `e` is raised and `str(e)` is the
provider message. -/
inductive GenOutcome where
  | success (parsed : Json)
  | failure (message : String)

/-- `analyze_resume` (gemini_engine.py): returns the parsed JSON on success
and the fixed error dict `{"error": "AI Analysis Failed", "details": str(e)}`
on any exception.  The prompt construction and network call are abstracted
into the `outcome` argument; the request fields feed only the prompt. -/
def analyze_resume (outcome : GenOutcome) (resume_text target_role known_skills : String) :
    Json :=
  match outcome with
  | .success parsed => parsed
  | .failure message =>
      .obj [("error", .str "AI Analysis Failed"), ("details", .str message)]

/-- Outcome of a free-text generation call (`client.models.generate_content`
followed by `.text`): the response text, or the raised exception's message.
A missing GEMINI_API_KEY surfaces as the `RuntimeError` from `get_client`,
which is also a `failure`. -/
inductive TextGenOutcome where
  | success (text : String)
  | failure (message : String)

/-- An HTTP-level handler result: a 200 JSON body, a raised `HTTPException`
with status code and detail, or an exception that escaped the handler and
that the framework surfaces as a plain 500 response. -/
inductive Resp where
  | ok (body : Json)
  | err (status : Nat) (detail : Json)
  | serverError

/-- The HTTP status code of a handler result. -/
def Resp.statusCode : Resp → Nat
  | .ok _ => 200
  | .err s _ => s
  | .serverError => 500

/-- A row of the `roadmap_progress` table.  `updated_at` is absent (`none`)
on seeded rows and set to the literal `"now()"` marker by progress updates,
as in the source dicts. -/
structure ProgressRow where
  analysis_id : String
  user_id : String
  day_label : String
  duration_type : String
  is_completed : Bool
  skill_score : Int
  updated_at : Option String
deriving DecidableEq

/-- A row of the `analyses` table, as built by the insert in `analyze`
(main.py lines 80-90); `created_at` is the server-assigned timestamp. -/
structure AnalysisRow where
  id : String
  user_id : String
  target_role : String
  eligible_roles : Json
  readiness_score : Int
  skills : Json
  required_skills : Json
  missing_skills : Json
  salary_tiers : Json
  preparation_plans : Json
  created_at : Nat

/-- The persistence store: the two relation sets the backend touches.
`State.supabase` being uninitialized is modelled as `Option DB = none` at
each handler. -/
structure DB where
  analyses : List AnalysisRow
  roadmap_progress : List ProgressRow

/-- The empty store. -/
def emptyDB : DB := { analyses := [], roadmap_progress := [] }

/-- The conflict key `user_id,analysis_id,day_label,duration_type` declared
on every `roadmap_progress` upsert. -/
def rowKey (r : ProgressRow) : String × String × String × String :=
  (r.user_id, r.analysis_id, r.day_label, r.duration_type)

/-- Upsert of one progress row under the conflict key, conflict policy =
overwrite (spec section 4.3): an existing row with the same key is replaced
in place, otherwise the row is appended. -/
def upsertOne (tbl : List ProgressRow) (r : ProgressRow) : List ProgressRow :=
  if tbl.any (fun x => decide (rowKey x = rowKey r)) then
    tbl.map (fun x => if rowKey x = rowKey r then r else x)
  else tbl ++ [r]

/-- Bulk upsert: the supplied rows applied in order under the conflict
policy, so a later payload row with the same key overwrites an earlier one. -/
def upsertMany (tbl : List ProgressRow) (rows : List ProgressRow) : List ProgressRow :=
  rows.foldl upsertOne tbl

/-- Request body of POST /analyze; pydantic enforces
`min_length=50` on `resume_text` before the handler runs. -/
structure AnalyzeRequest where
  resume_text : String
  target_role : String
  known_skills : String

/-- The framework-level validity condition on an /analyze body. -/
def AnalyzeRequest.valid (r : AnalyzeRequest) : Prop :=
  50 ≤ r.resume_text.length

/-- Request body of POST /update-progress; pydantic bounds `skill_score`
to 0..5. -/
structure ProgressUpdate where
  analysis_id : String
  day_label : String
  is_completed : Bool
  duration_type : String
  skill_score : Int

/-- The framework-level validity condition on an /update-progress body. -/
def ProgressUpdate.valid (d : ProgressUpdate) : Prop :=
  0 ≤ d.skill_score ∧ d.skill_score ≤ 5

/-- Request body of POST /explain-task. -/
structure ExplainRequest where
  topic : String
  description : String

/-- `mapM` over `Option`, written recursively: the loop body applied to each
element in order, the first exception aborting the whole loop. -/
def optMapM {α β : Type} (f : α → Option β) : List α → Option (List β)
  | [] => some []
  | a :: as =>
      match f a, optMapM f as with
      | some b, some bs => some (b :: bs)
      | _, _ => none

/-- One iteration of the seeding loop body (main.py lines 103-111): the
progress row appended for `task` under duration `dur`, with
`day_label = str(task.get("day"))`; a non-dict task raises (`none`). -/
def seedTask (uid aid dur : String) (task : Json) : Option ProgressRow :=
  (pyDictGetD task "day" .null).map (fun d =>
    { analysis_id := aid, user_id := uid, day_label := pyStr d,
      duration_type := dur, is_completed := false, skill_score := 5,
      updated_at := none })

/-- The full seeding loop (main.py lines 99-111): iterate the
`preparation_plans` mapping, iterate each duration's tasks, and collect one
row per task in order; any shape that would raise in Python yields `none`. -/
def buildSeedRows (uid aid : String) (plans : Json) : Option (List ProgressRow) :=
  match plans with
  | .obj ds =>
      (optMapM (fun p => (pyIter p.2).bind (optMapM (seedTask uid aid p.1))) ds).map
        List.flatten
  | _ => none

/-- The number of tasks across all durations of a `preparation_plans` value
(the number of loop iterations the seeding step performs). -/
def totalTasks (plans : Json) : Nat :=
  match plans with
  | .obj ds =>
      (ds.map (fun p => match pyIter p.2 with | some ts => ts.length | none => 0)).sum
  | _ => 0

/-- The analyses-table row dict built by the insert in `analyze`
(main.py lines 80-90): defaults fill absent keys for the stored row only. -/
def mkAnalysisRow (fs : List (String × Json)) (newId : String) (now : Nat)
    (uid : String) (req : AnalyzeRequest) (score : Int) : AnalysisRow :=
  { id := newId, user_id := uid, target_role := req.target_role,
    eligible_roles := dictGetD fs "eligible_roles" (.arr []),
    readiness_score := score,
    skills := dictGetD fs "skills" (.arr []),
    required_skills := dictGetD fs "required_skills" (.arr []),
    missing_skills := dictGetD fs "missing_skills" (.arr []),
    salary_tiers := dictGetD fs "salary_tiers" (.obj []),
    preparation_plans := dictGetD fs "preparation_plans" (.obj []),
    created_at := now }

/-- The body of the POST /analyze handler after the generation call, as a
function of the computed `analysis_result` value `ar` (main.py lines 72-119).
`insertOk` is whether the analyses insert returns data, `newId` the id the
store generates for the inserted row, `now` its server-assigned timestamp,
`uid` the verified caller's `uid` claim.  Any exception the handler body
would raise other than an `HTTPException` is caught by the outer handler and
becomes `500 "Internal processing error."`. -/
def analyzeCore (ar : Json) (insertOk : Bool) (newId : String) (now : Nat)
    (uid : String) (req : AnalyzeRequest) (db : Option DB) : Resp × Option DB :=
  match pyIn "error" ar with
  | none => (.err 500 (.str "Internal processing error."), db)
  | some true =>
      match pySubscript ar "error", pySubscript ar "details" with
      | some ev, some dv =>
          (.err (if containsSub (pyStr ev) "429" then 429 else 503) dv, db)
      | _, _ => (.err 500 (.str "Internal processing error."), db)
  | some false =>
      match db with
      | none => (.ok ar, none)
      | some d =>
          match ar with
          | .obj fs =>
              match pyToInt (dictGetD fs "readiness_score" (.num 0)) with
              | none => (.err 500 (.str "Internal processing error."), some d)
              | some score =>
                  if insertOk then
                    let row : AnalysisRow := mkAnalysisRow fs newId now uid req score
                    let d1 : DB := { d with analyses := d.analyses ++ [row] }
                    let body := Json.obj (pySetKeyFields fs "id" (.str newId))
                    match buildSeedRows uid newId (dictGetD fs "preparation_plans" (.obj [])) with
                    | none => (.err 500 (.str "Internal processing error."), some d1)
                    | some rows =>
                        let d2 :=
                          if rows.isEmpty then d1
                          else { d1 with
                                  roadmap_progress := upsertMany d1.roadmap_progress rows }
                        (.ok body, some d2)
                  else (.err 500 (.str "Database Sync Failed."), some d)
          | _ => (.err 500 (.str "Internal processing error."), some d)

/-- The POST /analyze handler (main.py lines 64-124): compute the generation
result, then run the orchestration body on it. -/
def analyze (outcome : GenOutcome) (insertOk : Bool) (newId : String) (now : Nat)
    (uid : String) (req : AnalyzeRequest) (db : Option DB) : Resp × Option DB :=
  analyzeCore (analyze_resume outcome req.resume_text req.target_role req.known_skills)
    insertOk newId now uid req db

/-- The single progress row built by `update_progress` from the caller's
body and verified uid (main.py lines 134-142). -/
def mkUpdRow (uid : String) (data : ProgressUpdate) : ProgressRow :=
  { user_id := uid, analysis_id := data.analysis_id, day_label := data.day_label,
    duration_type := data.duration_type, is_completed := data.is_completed,
    skill_score := data.skill_score, updated_at := some "now()" }

/-- JSON rendering of a progress row, the shape the store echoes back as
`res.data` for an upsert. -/
def progressRowToJson (r : ProgressRow) : Json :=
  .obj [("analysis_id", .str r.analysis_id), ("user_id", .str r.user_id),
        ("day_label", .str r.day_label), ("duration_type", .str r.duration_type),
        ("is_completed", .bool r.is_completed), ("skill_score", .num r.skill_score),
        ("updated_at", match r.updated_at with | some s => .str s | none => .null)]

/-- The POST /update-progress handler (main.py lines 126-147): explicit 500
when the persistence client is absent, otherwise a point upsert of one row
under the conflict key. -/
def update_progress (uid : String) (data : ProgressUpdate) (db : Option DB) :
    Resp × Option DB :=
  match db with
  | none => (.err 500 (.str "Supabase offline"), none)
  | some d =>
      let row := mkUpdRow uid data
      (.ok (.obj [("status", .str "success"), ("data", .arr [progressRowToJson row])]),
       some { d with roadmap_progress := upsertOne d.roadmap_progress row })

/-- The GET /get-progress/{analysis_id} handler (main.py lines 149-156):
empty list when the persistence client is absent, otherwise the progress
rows filtered by the requested analysis id and the verified caller id. -/
def get_progress (uid analysisId : String) (db : Option DB) : List ProgressRow :=
  match db with
  | none => []
  | some d =>
      d.roadmap_progress.filter
        (fun r => r.analysis_id == analysisId && r.user_id == uid)

/-- Descending insertion by `created_at`, modelling `order("created_at",
desc=True)`. -/
def insertDesc (a : AnalysisRow) : List AnalysisRow → List AnalysisRow
  | [] => [a]
  | b :: bs => if a.created_at ≤ b.created_at then b :: insertDesc a bs else a :: b :: bs

/-- Sort a list of analyses newest first. -/
def sortByCreatedDesc (l : List AnalysisRow) : List AnalysisRow :=
  l.foldr insertDesc []

/-- The GET /learning-records handler (main.py lines 158-165): empty list
when the persistence client is absent, otherwise the caller's analyses
ordered by creation time descending. -/
def list_records (uid : String) (db : Option DB) : List AnalysisRow :=
  match db with
  | none => []
  | some d => sortByCreatedDesc (d.analyses.filter (fun a => a.user_id == uid))

/-- The DELETE /delete-record/{record_id} handler (main.py lines 167-172).
There is no persistence guard and no try block: with the client absent,
reading `.table` of `None` raises an `AttributeError` that escapes the
handler, which the framework surfaces as a plain 500 (`serverError`).
Otherwise the delete predicate is `id == record_id AND user_id == uid`. -/
def delete_record (uid recordId : String) (db : Option DB) : Resp × Option DB :=
  match db with
  | none => (.serverError, none)
  | some d =>
      (.ok (.obj [("status", .str "success")]),
       some { d with
               analyses := d.analyses.filter
                 (fun a => !(a.id == recordId && a.user_id == uid)) })

/-- The fixed fallback text of the /explain-task handler. -/
def fallbackExplanation : String :=
  "Neural Link offline. The AI Mentor is currently recalibrating."

/-- The prompt built by /explain-task (main.py lines 179-183). -/
def explainPrompt (req : ExplainRequest) : String :=
  "You are a Senior Technical Mentor. Explain the topic " ++ apos ++ req.topic ++ apos ++
    " clearly for a student. Context: " ++ req.description ++ ". " ++
    "Use bullet points, keep it under 150 words, and focus on practical application."

/-- The POST /explain-task handler (main.py lines 174-189): the model's text
on success, and on any exception (missing API key included) the fixed
fallback explanation — always a 200 body, never a raised error. -/
def explain_task (outcome : TextGenOutcome) (req : ExplainRequest) : Resp :=
  match outcome with
  | .success t => .ok (.obj [("explanation", .str t)])
  | .failure _ => .ok (.obj [("explanation", .str fallbackExplanation)])

/-- One prior interview turn, the `{q, a}` entries of the request history. -/
structure QAEntry where
  q : String
  a : String
deriving DecidableEq

/-- Request body of POST /mock-interview (both source definitions agree on
this shape). -/
structure InterviewRequest where
  target_role : String
  last_answer : String
  history : List QAEntry

/-- The system instruction of the first /mock-interview definition
(main.py lines 201-208). -/
def interviewSystemInstructionV1 (role : String) : String :=
  "You are a Senior Technical Interviewer for the role of " ++ role ++ ". " ++
    "Your goal is to assess the candidate" ++ apos ++ "s depth of knowledge. " ++
    "1. Ask only ONE technical question at a time. " ++
    "2. If the user provides an answer, give a brief 1-sentence feedback and then ask a follow-up or new question. " ++
    "3. Keep the conversation professional and challenging. " ++
    "4. If the user says " ++ apos ++ "start" ++ apos ++
    ", ask the first introductory technical question."

/-- The `messages` list the first /mock-interview definition builds from the
history (main.py lines 211-214) — built in chronological order but never
passed to the generation call. -/
def interviewMessagesV1 (req : InterviewRequest) : List (String × String) :=
  ("user", interviewSystemInstructionV1 req.target_role) ::
    req.history.flatMap (fun e => [("user", e.q), ("model", e.a)])

/-- The `contents` the first /mock-interview definition actually sends
(main.py lines 216-222): the latest answer alone, or a fixed opener when it
is empty. -/
def interviewContentsV1 (req : InterviewRequest) : String :=
  if req.last_answer == "" then "Let" ++ apos ++ "s start the interview."
  else req.last_answer

/-- The persona/system instruction of the second /mock-interview definition
(main.py lines 244-253). -/
def interviewPersonaV2 (role : String) : String :=
  "You are a Senior Technical Lead at a top-tier tech company. " ++
    "You are conducting a technical interview for the role of " ++ role ++ ". " ++
    "STRICT RULES: " ++
    "1. Ask exactly ONE technical question at a time. " ++
    "2. Evaluate the user" ++ apos ++ "s previous answer briefly (2 sentences max). " ++
    "3. Progress from fundamental concepts to complex architecture. " ++
    "4. If the user" ++ apos ++ "s answer is weak, ask a clarifying follow-up. " ++
    "5. Maintain a professional, slightly intimidating but fair tone."

/-- The `contents` the second /mock-interview definition would send
(main.py lines 256-260): the target role header, every history pair in
chronological order, then the latest answer. -/
def interviewContentsV2 (req : InterviewRequest) : String :=
  (req.history.foldl
      (fun acc e => acc ++ "Interviewer: " ++ e.q ++ "\nCandidate: " ++ e.a ++ "\n")
      ("Target Role: " ++ req.target_role ++ "\n")) ++
    "Candidate" ++ apos ++ "s latest response: " ++ req.last_answer

/-- The `contents` an actual POST /mock-interview request sends to the
generation model.  The application registers two handlers on the same path
and method; the HTTP router dispatches each request to the first registered
handler (main.py lines 195-226), so the second definition is unreachable. -/
def mock_interview_contents (req : InterviewRequest) : String :=
  interviewContentsV1 req

/-- The system instruction an actual POST /mock-interview request sends
(first registered handler). -/
def mock_interview_system (req : InterviewRequest) : String :=
  interviewSystemInstructionV1 req.target_role

/-- A valid /analyze request body (resume text of 55 characters) used for
concrete evaluations. -/
def req0 : AnalyzeRequest :=
  { resume_text := "0123456789012345678901234567890123456789012345678901234",
    target_role := "Backend Engineer", known_skills := "" }

/-- The field list of a fully schema-conformant generation result. -/
def fullGenFields : List (String × Json) :=
  [("readiness_score", .num 72),
   ("skills", .arr [.str "Python"]),
   ("required_skills", .arr [.str "Python", .str "SQL"]),
   ("missing_skills", .arr [.str "SQL"]),
   ("eligible_roles", .arr [.str "Data Analyst"]),
   ("salary_tiers", .obj [("entry", .str "6,00,000"), ("mid", .str "12,00,000"),
                          ("senior", .str "25,00,000")]),
   ("preparation_plans", .obj
     [("30", .arr [.obj [("day", .str "Day 1"), ("topic", .str "SQL basics")]]),
      ("60", .arr [.obj [("day", .str "Day 1"), ("topic", .str "Joins")],
                   .obj [("day", .str "Day 2"), ("topic", .str "Indexes")]]),
      ("90", .arr [])])]

/-- A fully schema-conformant generation result. -/
def fullGen : Json := .obj fullGenFields

/-- A generation result that parses successfully but carries only one of the
seven schema keys. -/
def sparseGen : Json := .obj [("readiness_score", .num 50)]

-- Generic helper lemmas ------------------------------------------------------

/-- Replacing the value under an existing key leaves the key sequence of a
field list unchanged. -/
theorem map_fst_pySetKeyFields_replace (fs : List (String × Json)) (key : String) (v : Json) :
    (fs.map (fun p => if p.1 == key then (key, v) else p)).map Prod.fst
      = fs.map Prod.fst := by
  induction fs with
  | nil => rfl
  | cons p rest ih =>
      simp only [List.map_cons]
      by_cases h : (p.1 == key) = true
      · have hk : p.1 = key := by simpa using h
        rw [if_pos h, ih, hk]
      · rw [if_neg h, ih]

/-- Unfolding key membership on an object. -/
theorem hasKey_obj (fs : List (String × Json)) (k : String) :
    hasKey (.obj fs) k = fs.any (fun p => p.1 == k) := rfl

/-- Key membership after a Python dict assignment: the assigned key is
present, every other key is present exactly when it was before. -/
theorem hasKey_pySetKeyFields (fs : List (String × Json)) (key k : String) (v : Json) :
    hasKey (.obj (pySetKeyFields fs key v)) k
      = (hasKey (.obj fs) k || k == key) := by
  have hany : ∀ (l : List (String × Json)),
      l.any (fun p => p.1 == k) = (l.map Prod.fst).any (fun s => s == k) := by
    intro l; induction l with
    | nil => rfl
    | cons p rest ih => simp [ih]
  rw [hasKey_obj, hasKey_obj]
  unfold pySetKeyFields
  by_cases h : (fs.any fun p => p.1 == key) = true
  · rw [if_pos h, hany, map_fst_pySetKeyFields_replace, ← hany]
    by_cases hk : k = key
    · subst hk; simp [h]
    · have h2 : (k == key) = false := by simp [hk]
      rw [h2, Bool.or_false]
  · rw [if_neg h, List.any_append]
    by_cases hk : k = key
    · subst hk; simp
    · have h1 : ([(key, v)].any fun p => p.1 == k) = false := by
        simp [Ne.symm hk]
      have h2 : (k == key) = false := by simp [hk]
      rw [h1, h2]

-- C9 -------------------------------------------------------------------------

/-- C9: for every ExplainTopic request, the handler responds 200: the model
text on success, and the fixed fallback explanation on any provider failure
(missing generation key included); it never returns a non-2xx response. -/
theorem C9_explain_topic_never_fails :
    ∀ (req : ExplainRequest) (t m : String),
      explain_task (.success t) req = .ok (.obj [("explanation", .str t)]) ∧
      explain_task (.failure m) req = .ok (.obj [("explanation", .str fallbackExplanation)]) ∧
      ∀ outcome : TextGenOutcome, (explain_task outcome req).statusCode = 200 := by
  intro req t m
  refine ⟨rfl, rfl, ?_⟩
  intro outcome
  cases outcome <;> rfl

-- C2 -------------------------------------------------------------------------

/-- C2: the code checks the rate-limit marker against the constant `error`
field (`"AI Analysis Failed"`) instead of the provider-supplied `details`
message, so a generation failure whose provider message carries the `429`
marker is still answered with HTTP 503, contradicting the claim that such
failures map to 429.  (It does hold that no generation error is answered
2xx.) -/
theorem C2_rate_limited_generation_failure_maps_to_503 :
    analyze (.failure "429 RESOURCE_EXHAUSTED: quota exceeded") true "a1" 0 "u1" req0
        (some emptyDB)
      = (.err 503 (.str "429 RESOURCE_EXHAUSTED: quota exceeded"), some emptyDB) ∧
    containsSub "429 RESOURCE_EXHAUSTED: quota exceeded" "429" = true ∧
    containsSub "AI Analysis Failed" "429" = false ∧
    ∀ (message : String) (insertOk : Bool) (newId : String) (now : Nat)
      (uid : String) (req : AnalyzeRequest) (db : Option DB),
      analyze (.failure message) insertOk newId now uid req db
        = (.err 503 (.str message), db) := by
  refine ⟨rfl, by decide, by decide, ?_⟩
  intro message insertOk newId now uid req db
  rfl

-- C3 -------------------------------------------------------------------------

/-- A mock-interview request with one prior question/answer pair. -/
def interviewReq0 : InterviewRequest :=
  { target_role := "Backend Engineer", last_answer := "I used Redis.",
    history := [{ q := "What is caching?", a := "Storing results." }] }

/-- C3: the handler that actually serves /mock-interview (the first
registered definition) sends only the latest answer as contents — the
history it linearizes into `messages` is never passed to the generation
call — so the model does not see prior question/answer pairs; the second,
unreachable definition would have included them in order. -/
theorem C3_effective_handler_drops_history :
    mock_interview_contents interviewReq0 = "I used Redis." ∧
    containsSub (mock_interview_contents interviewReq0) "What is caching?" = false ∧
    interviewMessagesV1 interviewReq0 =
      [("user", interviewSystemInstructionV1 "Backend Engineer"),
       ("user", "What is caching?"), ("model", "Storing results.")] ∧
    containsSub (interviewContentsV2 interviewReq0) "What is caching?" = true ∧
    ∀ req : InterviewRequest,
      mock_interview_contents req
        = (if req.last_answer == "" then "Let" ++ apos ++ "s start the interview."
           else req.last_answer) := by
  refine ⟨rfl, by decide, rfl, by decide, ?_⟩
  intro req
  rfl

-- C1 -------------------------------------------------------------------------

/-- C1 counterexample: a valid request whose generation call succeeds with a
partial structure is answered 200 with the partial structure itself (plus
the generated id): the response lacks six of the seven schema keys and its
`preparation_plans` key is absent rather than filled with `"30"/"60"/"90"`. -/
theorem C1_counterexample_partial_generation_partial_response :
    50 ≤ req0.resume_text.length ∧
    (analyze (.success sparseGen) true "a1" 0 "u1" req0 (some emptyDB)).1
      = .ok (.obj [("readiness_score", .num 50), ("id", .str "a1")]) ∧
    hasKey (.obj [("readiness_score", .num 50), ("id", .str "a1")]) "skills" = false ∧
    hasKey (.obj [("readiness_score", .num 50), ("id", .str "a1")]) "preparation_plans"
      = false := by
  refine ⟨by decide, rfl, by decide, by decide⟩

/-- Reducing the error-key membership test for an object result. -/
theorem pyIn_error_obj (fs : List (String × Json)) (h : hasKey (.obj fs) "error" = false) :
    pyIn "error" (Json.obj fs) = some false := by
  rw [hasKey_obj] at h
  show some (fs.any fun p => p.1 == "error") = some false
  rw [h]

/-- Shape of a successful Analyze call with persistence configured and a
successful insert: the response body is the generation object with the
generated id attached, the analyses row is appended, and the seed rows are
bulk-upserted (the upsert being skipped when no rows were built). -/
theorem analyze_success_shape
    (fs : List (String × Json)) (newId : String) (now : Nat) (uid : String)
    (req : AnalyzeRequest) (d : DB) (sc : Int) (rows : List ProgressRow)
    (hnoerr : hasKey (.obj fs) "error" = false)
    (hscore : pyToInt (dictGetD fs "readiness_score" (.num 0)) = some sc)
    (hseed : buildSeedRows uid newId (dictGetD fs "preparation_plans" (.obj []))
      = some rows) :
    analyze (.success (.obj fs)) true newId now uid req (some d)
      = (.ok (.obj (pySetKeyFields fs "id" (.str newId))),
         some { analyses := d.analyses ++ [mkAnalysisRow fs newId now uid req sc],
                roadmap_progress :=
                  if rows.isEmpty then d.roadmap_progress
                  else upsertMany d.roadmap_progress rows }) := by
  have h0 : analyze (.success (.obj fs)) true newId now uid req (some d)
      = analyzeCore (.obj fs) true newId now uid req (some d) := rfl
  rw [h0]
  unfold analyzeCore
  rw [pyIn_error_obj fs hnoerr]
  simp only [hscore, hseed]
  by_cases he : rows.isEmpty
  · simp [he]
  · simp [he]

/-- C1 (amended): for every valid request whose generation call succeeds
with a JSON object free of the error marker (and whose shape the seeding
step accepts), the Analyze response is exactly the generation result with
the generated id attached: each of the seven schema keys appears in the
response iff the generation result contains it, so absent keys — absent
`preparation_plans` durations included — stay absent in the response (they
are only skipped without error when seeding), rather than being filled in. -/
theorem C1_response_mirrors_generation
    (fs : List (String × Json)) (newId : String) (now : Nat) (uid : String)
    (req : AnalyzeRequest) (d : DB) (sc : Int) (rows : List ProgressRow)
    (hvalid : req.valid)
    (hnoerr : hasKey (.obj fs) "error" = false)
    (hscore : pyToInt (dictGetD fs "readiness_score" (.num 0)) = some sc)
    (hseed : buildSeedRows uid newId (dictGetD fs "preparation_plans" (.obj []))
      = some rows) :
    (analyze (.success (.obj fs)) true newId now uid req (some d)).1
      = .ok (.obj (pySetKeyFields fs "id" (.str newId))) ∧
    (∀ k, ¬k = "id" →
        hasKey (.obj (pySetKeyFields fs "id" (.str newId))) k = hasKey (.obj fs) k) ∧
    hasKey (.obj (pySetKeyFields fs "id" (.str newId))) "id" = true := by
  refine ⟨?_, ?_, ?_⟩
  · rw [analyze_success_shape fs newId now uid req d sc rows hnoerr hscore hseed]
  · intro k hk
    rw [hasKey_pySetKeyFields]
    have h2 : (k == "id") = false := by simp [hk]
    rw [h2, Bool.or_false]
  · rw [hasKey_pySetKeyFields]
    simp

/-- The rows the seeding step builds for `fullGen`. -/
def fullSeedRows : List ProgressRow :=
  [{ analysis_id := "a1", user_id := "u1", day_label := "Day 1", duration_type := "30",
     is_completed := false, skill_score := 5, updated_at := none },
   { analysis_id := "a1", user_id := "u1", day_label := "Day 1", duration_type := "60",
     is_completed := false, skill_score := 5, updated_at := none },
   { analysis_id := "a1", user_id := "u1", day_label := "Day 2", duration_type := "60",
     is_completed := false, skill_score := 5, updated_at := none }]

/-- Witness for C1 (amended) at a fully schema-conformant generation result. -/
theorem C1_response_mirrors_generation_witness :
    (analyze (.success (.obj fullGenFields)) true "a1" 0 "u1" req0 (some emptyDB)).1
      = .ok (.obj (pySetKeyFields fullGenFields "id" (.str "a1"))) ∧
    (∀ k, ¬k = "id" →
        hasKey (.obj (pySetKeyFields fullGenFields "id" (.str "a1"))) k
          = hasKey (.obj fullGenFields) k) ∧
    hasKey (.obj (pySetKeyFields fullGenFields "id" (.str "a1"))) "id" = true :=
  C1_response_mirrors_generation fullGenFields "a1" 0 "u1" req0 emptyDB 72 fullSeedRows
    (by show 50 ≤ req0.resume_text.length; decide) (by rfl) (by rfl) (by rfl)

-- C4 -------------------------------------------------------------------------

/-- C4 counterexample: with no persistence client, Analyze does not answer
500 — it silently skips its persistence step and returns the generation
result (without an id) with HTTP 200. -/
theorem C4_counterexample_analyze_succeeds_without_persistence :
    analyze (.success fullGen) true "a1" 0 "u1" req0 none = (.ok fullGen, none) ∧
    (analyze (.success fullGen) true "a1" 0 "u1" req0 none).1.statusCode = 200 := by
  refine ⟨rfl, rfl⟩

/-- C4 (amended): with persistence configuration absent, the read endpoints
(GetProgress, ListRecords) return empty sequences with success and
UpdateProgress answers an explicit 500; DeleteRecord fails with an unhandled
error that the framework surfaces as a plain 500; but Analyze does not
error — it skips its persistence step and returns the generation result
with success.  No request crashes the process (every outcome is an HTTP
response). -/
theorem C4_no_persistence_degradation
    (uid aid rid newId : String) (now : Nat) (insertOk : Bool)
    (upd : ProgressUpdate) (req : AnalyzeRequest) (fs : List (String × Json))
    (hnoerr : hasKey (.obj fs) "error" = false) :
    get_progress uid aid none = [] ∧
    list_records uid none = [] ∧
    update_progress uid upd none = (.err 500 (.str "Supabase offline"), none) ∧
    delete_record uid rid none = (.serverError, none) ∧
    (delete_record uid rid none).1.statusCode = 500 ∧
    analyze (.success (.obj fs)) insertOk newId now uid req none
      = (.ok (.obj fs), none) := by
  refine ⟨rfl, rfl, rfl, rfl, rfl, ?_⟩
  have h0 : analyze (.success (.obj fs)) insertOk newId now uid req none
      = analyzeCore (.obj fs) insertOk newId now uid req none := rfl
  rw [h0]
  unfold analyzeCore
  rw [pyIn_error_obj fs hnoerr]

/-- Witness for C4 (amended) at concrete inputs. -/
theorem C4_no_persistence_degradation_witness :
    get_progress "u1" "a1" none = [] ∧
    list_records "u1" none = [] ∧
    update_progress "u1"
        { analysis_id := "a1", day_label := "Day 1", is_completed := true,
          duration_type := "30", skill_score := 3 } none
      = (.err 500 (.str "Supabase offline"), none) ∧
    delete_record "u1" "r1" none = (.serverError, none) ∧
    (delete_record "u1" "r1" none).1.statusCode = 500 ∧
    analyze (.success (.obj fullGenFields)) true "a1" 0 "u1" req0 none
      = (.ok (.obj fullGenFields), none) :=
  C4_no_persistence_degradation "u1" "a1" "r1" "a1" 0 true
    { analysis_id := "a1", day_label := "Day 1", is_completed := true,
      duration_type := "30", skill_score := 3 } req0 fullGenFields (by rfl)

-- Upsert lemma suite ---------------------------------------------------------

/-- The rows of a progress table that carry a given conflict key. -/
def rowsWithKey (tbl : List ProgressRow) (k : String × String × String × String) :
    List ProgressRow :=
  tbl.filter (fun r => decide (rowKey r = k))

/-- Well-formedness of the progress table: the store's unique index on the
conflict key keeps keys pairwise distinct. -/
def keysNodup (tbl : List ProgressRow) : Prop := (tbl.map rowKey).Nodup

/-- Replacement under a key no row carries is the identity. -/
theorem replace_of_no_key (tbl : List ProgressRow) (r : ProgressRow)
    (h : ∀ y ∈ tbl, ¬rowKey y = rowKey r) :
    tbl.map (fun x => if rowKey x = rowKey r then r else x) = tbl := by
  induction tbl with
  | nil => rfl
  | cons y ys ih =>
      have hy := h y (List.mem_cons_self y ys)
      simp only [List.map_cons, if_neg hy]
      rw [ih (fun z hz => h z (List.mem_cons_of_mem y hz))]

/-- A table without the key filters to no rows with that key. -/
theorem rowsWithKey_eq_nil (tbl : List ProgressRow) (k : String × String × String × String)
    (h : ∀ y ∈ tbl, ¬rowKey y = k) : rowsWithKey tbl k = [] := by
  apply List.filter_eq_nil_iff.mpr
  intro a ha
  simp [h a ha]

/-- Replacement preserves the key sequence of the table. -/
theorem map_rowKey_replace (tbl : List ProgressRow) (r : ProgressRow) :
    (tbl.map (fun x => if rowKey x = rowKey r then r else x)).map rowKey
      = tbl.map rowKey := by
  induction tbl with
  | nil => rfl
  | cons y ys ih =>
      simp only [List.map_cons]
      by_cases hy : rowKey y = rowKey r
      · rw [if_pos hy, ih, hy]
      · rw [if_neg hy, ih]

/-- Upsert preserves well-formedness of the table. -/
theorem keysNodup_upsertOne (tbl : List ProgressRow) (r : ProgressRow)
    (h : keysNodup tbl) : keysNodup (upsertOne tbl r) := by
  unfold upsertOne keysNodup
  by_cases hmem : tbl.any (fun x => decide (rowKey x = rowKey r)) = true
  · rw [if_pos hmem, map_rowKey_replace]
    exact h
  · rw [if_neg hmem, List.map_append]
    have hfresh : rowKey r ∉ tbl.map rowKey := by
      intro hin
      rcases List.mem_map.mp hin with ⟨x, hx, hxk⟩
      exact hmem (List.any_eq_true.mpr ⟨x, hx, by simp [hxk]⟩)
    refine List.nodup_append.mpr ⟨h, ?_, ?_⟩
    · simp
    · intro a ha hb
      simp only [List.map_cons, List.map_nil, List.mem_singleton] at hb
      rw [hb] at ha
      exact hfresh ha

/-- Filtering a replaced well-formed table by the replaced key yields the
replacement row alone. -/
theorem rowsWithKey_replace (tbl : List ProgressRow) (r : ProgressRow)
    (h : (tbl.map rowKey).Nodup)
    (hmem : ∃ x ∈ tbl, rowKey x = rowKey r) :
    rowsWithKey (tbl.map (fun x => if rowKey x = rowKey r then r else x)) (rowKey r)
      = [r] := by
  induction tbl with
  | nil => rcases hmem with ⟨x, hx, _⟩; cases hx
  | cons y ys ih =>
      rw [List.map_cons] at h
      rcases List.nodup_cons.mp h with ⟨hy_not, hys⟩
      by_cases hy : rowKey y = rowKey r
      · have hno : ∀ z ∈ ys, ¬rowKey z = rowKey r := by
          intro z hz hzk
          apply hy_not
          have hzm : rowKey z ∈ ys.map rowKey := List.mem_map_of_mem rowKey hz
          rw [hzk, ← hy] at hzm
          exact hzm
        simp only [List.map_cons, if_pos hy]
        rw [replace_of_no_key ys r hno]
        have h2 : ys.filter (fun x => decide (rowKey x = rowKey r)) = [] := by
          apply List.filter_eq_nil_iff.mpr
          intro a ha
          simp [hno a ha]
        simp [rowsWithKey, List.filter_cons, h2]
      · have hmem2 : ∃ x ∈ ys, rowKey x = rowKey r := by
          rcases hmem with ⟨x, hx, hxk⟩
          rcases List.mem_cons.mp hx with rfl | hx2
          · exact absurd hxk hy
          · exact ⟨x, hx2, hxk⟩
        simp only [List.map_cons, if_neg hy]
        have hf : rowsWithKey ((if rowKey y = rowKey r then r else y) ::
            ys.map (fun x => if rowKey x = rowKey r then r else x)) (rowKey r)
            = rowsWithKey (ys.map (fun x => if rowKey x = rowKey r then r else x))
                (rowKey r) := by
          rw [if_neg hy]
          simp [rowsWithKey, List.filter_cons, hy]
        rw [if_neg hy] at hf
        rw [hf]
        exact ih hys hmem2

/-- After an upsert into a well-formed table, the upserted key maps to
exactly the upserted row. -/
theorem rowsWithKey_upsertOne (tbl : List ProgressRow) (r : ProgressRow)
    (h : keysNodup tbl) : rowsWithKey (upsertOne tbl r) (rowKey r) = [r] := by
  unfold upsertOne
  by_cases hmem : tbl.any (fun x => decide (rowKey x = rowKey r)) = true
  · rw [if_pos hmem]
    apply rowsWithKey_replace tbl r h
    rcases List.any_eq_true.mp hmem with ⟨x, hx, hxk⟩
    exact ⟨x, hx, of_decide_eq_true hxk⟩
  · rw [if_neg hmem]
    unfold rowsWithKey
    rw [List.filter_append]
    have h1 : tbl.filter (fun x => decide (rowKey x = rowKey r)) = [] := by
      apply List.filter_eq_nil_iff.mpr
      intro a ha
      intro hk
      exact hmem (List.any_eq_true.mpr ⟨a, ha, hk⟩)
    rw [h1]
    simp

/-- Replacement is the identity when every row carrying the key is already
the replacement row. -/
theorem replace_id_of_uniq (tbl : List ProgressRow) (r : ProgressRow)
    (huniq : ∀ x ∈ tbl, rowKey x = rowKey r → x = r) :
    tbl.map (fun x => if rowKey x = rowKey r then r else x) = tbl := by
  induction tbl with
  | nil => rfl
  | cons y ys ih =>
      simp only [List.map_cons]
      have htail := ih (fun z hz hzk => huniq z (List.mem_cons_of_mem y hz) hzk)
      by_cases hy : rowKey y = rowKey r
      · rw [if_pos hy, htail, huniq y (List.mem_cons_self y ys) hy]
      · rw [if_neg hy, htail]

/-- Upserting a row that is already present verbatim (and is the only row
with its key) leaves the table unchanged. -/
theorem upsertOne_of_present (tbl : List ProgressRow) (r : ProgressRow)
    (hmem : r ∈ tbl)
    (huniq : ∀ x ∈ tbl, rowKey x = rowKey r → x = r) :
    upsertOne tbl r = tbl := by
  unfold upsertOne
  have hany : tbl.any (fun x => decide (rowKey x = rowKey r)) = true :=
    List.any_eq_true.mpr ⟨r, hmem, by simp⟩
  rw [if_pos hany, replace_id_of_uniq tbl r huniq]

/-- The upserted row is a member of the upserted table. -/
theorem self_mem_upsertOne (tbl : List ProgressRow) (r : ProgressRow) :
    r ∈ upsertOne tbl r := by
  unfold upsertOne
  by_cases hany : tbl.any (fun x => decide (rowKey x = rowKey r)) = true
  · rw [if_pos hany]
    rcases List.any_eq_true.mp hany with ⟨x, hx, hxk⟩
    exact List.mem_map.mpr ⟨x, hx, by simp [of_decide_eq_true hxk]⟩
  · rw [if_neg hany]
    simp

/-- Upserting a key the table already holds does not change the row count. -/
theorem length_upsertOne_of_hit (tbl : List ProgressRow) (r : ProgressRow)
    (hmem : ∃ x ∈ tbl, rowKey x = rowKey r) :
    (upsertOne tbl r).length = tbl.length := by
  rcases hmem with ⟨x, hx, hxk⟩
  unfold upsertOne
  have hany : tbl.any (fun x => decide (rowKey x = rowKey r)) = true :=
    List.any_eq_true.mpr ⟨x, hx, by simp [hxk]⟩
  rw [if_pos hany, List.length_map]

-- C5 -------------------------------------------------------------------------

/-- C5: progress upsert is last-write-wins idempotent under the composite
key: starting from any well-keyed state, two updates to the same composite
key leave exactly one row for that key, holding the later submission's
values, without growing the table on the second write; repeating the same
submission leaves the state unchanged. -/
theorem C5_update_progress_idempotent
    (uid : String) (d : DB) (u1 u2 : ProgressUpdate)
    (hwf : keysNodup d.roadmap_progress)
    (hkey : rowKey (mkUpdRow uid u1) = rowKey (mkUpdRow uid u2)) :
    ∃ d1 d2 : DB,
      (update_progress uid u1 (some d)).2 = some d1 ∧
      (update_progress uid u2 (some d1)).2 = some d2 ∧
      rowsWithKey d2.roadmap_progress (rowKey (mkUpdRow uid u2)) = [mkUpdRow uid u2] ∧
      d2.roadmap_progress.length = d1.roadmap_progress.length ∧
      (update_progress uid u2 (some d2)).2 = some d2 := by
  refine ⟨_, _, rfl, rfl, ?_, ?_, ?_⟩
  · exact rowsWithKey_upsertOne _ _ (keysNodup_upsertOne _ _ hwf)
  · exact length_upsertOne_of_hit _ _ ⟨mkUpdRow uid u1, self_mem_upsertOne _ _, hkey⟩
  · have h3 := rowsWithKey_upsertOne (upsertOne d.roadmap_progress (mkUpdRow uid u1))
        (mkUpdRow uid u2) (keysNodup_upsertOne _ _ hwf)
    have huniq : ∀ x ∈ upsertOne (upsertOne d.roadmap_progress (mkUpdRow uid u1))
        (mkUpdRow uid u2), rowKey x = rowKey (mkUpdRow uid u2) → x = mkUpdRow uid u2 := by
      intro x hx hxk
      have hxf : x ∈ rowsWithKey
          (upsertOne (upsertOne d.roadmap_progress (mkUpdRow uid u1)) (mkUpdRow uid u2))
          (rowKey (mkUpdRow uid u2)) :=
        List.mem_filter.mpr ⟨hx, by simp [hxk]⟩
      rw [h3] at hxf
      simpa using hxf
    have hrep := upsertOne_of_present _ (mkUpdRow uid u2) (self_mem_upsertOne _ _) huniq
    simp only [update_progress]
    rw [hrep]

/-- The first progress submission of the C5 witness. -/
def upd1 : ProgressUpdate :=
  { analysis_id := "a1", day_label := "Day 1", is_completed := false,
    duration_type := "30", skill_score := 4 }

/-- The second progress submission of the C5 witness: same composite key,
different values. -/
def upd2 : ProgressUpdate :=
  { analysis_id := "a1", day_label := "Day 1", is_completed := true,
    duration_type := "30", skill_score := 2 }

/-- Witness for C5 at concrete inputs. -/
theorem C5_update_progress_idempotent_witness :
    ∃ d1 d2 : DB,
      (update_progress "u1" upd1 (some emptyDB)).2 = some d1 ∧
      (update_progress "u1" upd2 (some d1)).2 = some d2 ∧
      rowsWithKey d2.roadmap_progress (rowKey (mkUpdRow "u1" upd2))
        = [mkUpdRow "u1" upd2] ∧
      d2.roadmap_progress.length = d1.roadmap_progress.length ∧
      (update_progress "u1" upd2 (some d2)).2 = some d2 :=
  C5_update_progress_idempotent "u1" emptyDB upd1 upd2
    (by simp [keysNodup, emptyDB]) (by rfl)

-- C6 -------------------------------------------------------------------------

/-- C6: reads and deletes are scoped by the verified caller id: every row
GetProgress returns carries the caller's user id whatever analysis id is
probed, and DeleteRecord removes only rows matching both the requested
record id and the caller's user id — other users' rows always survive. -/
theorem C6_user_scoped_reads_and_deletes (uid aid rid : String) (d : DB) :
    (∀ r ∈ get_progress uid aid (some d), r.user_id = uid) ∧
    (delete_record uid rid (some d)).2
      = some { d with analyses :=
          d.analyses.filter (fun a => !(a.id == rid && a.user_id == uid)) } ∧
    (∀ a ∈ d.analyses,
        a ∉ d.analyses.filter (fun a => !(a.id == rid && a.user_id == uid)) →
        a.id = rid ∧ a.user_id = uid) ∧
    (∀ a ∈ d.analyses, ¬a.user_id = uid →
        a ∈ d.analyses.filter (fun a => !(a.id == rid && a.user_id == uid))) := by
  refine ⟨?_, rfl, ?_, ?_⟩
  · intro r hr
    unfold get_progress at hr
    have h2 := (List.mem_filter.mp hr).2
    simp only [Bool.and_eq_true, beq_iff_eq] at h2
    exact h2.2
  · intro a ha hnot
    cases hb : (a.id == rid && a.user_id == uid) with
    | false => exact absurd (List.mem_filter.mpr ⟨ha, by simp [hb]⟩) hnot
    | true =>
        have hb2 := hb
        simp only [Bool.and_eq_true, beq_iff_eq] at hb2
        exact hb2
  · intro a ha hne
    apply List.mem_filter.mpr
    refine ⟨ha, ?_⟩
    simp [hne]

/-- A seeded progress row owned by user u1, for the C6 witness. -/
def rowU1 : ProgressRow :=
  { analysis_id := "a1", user_id := "u1", day_label := "Day 1", duration_type := "30",
    is_completed := false, skill_score := 5, updated_at := none }

/-- A store holding one progress row of user u1, for the C6 witness. -/
def dbC6 : DB := { analyses := [], roadmap_progress := [rowU1] }

/-- Witness for C6: the row returned by a concrete GetProgress carries the
caller's user id. -/
theorem C6_user_scoped_reads_and_deletes_witness : rowU1.user_id = "u1" :=
  (C6_user_scoped_reads_and_deletes "u1" "a1" "r1" dbC6).1 rowU1 (by decide)

-- Seeding lemma suite --------------------------------------------------------

/-- A successful loop over a list produces one result per element. -/
theorem optMapM_length {α β : Type} (f : α → Option β)
    (l : List α) (l2 : List β) (h : optMapM f l = some l2) : l2.length = l.length := by
  induction l generalizing l2 with
  | nil =>
      unfold optMapM at h
      cases h
      rfl
  | cons a as ih =>
      unfold optMapM at h
      cases hfa : f a with
      | none => rw [hfa] at h; simp at h
      | some b =>
          cases has : optMapM f as with
          | none => rw [hfa, has] at h; simp at h
          | some bs =>
              rw [hfa, has] at h
              cases h
              simp [ih bs has]

/-- Every result of a successful loop comes from some element of the input. -/
theorem optMapM_mem {α β : Type} (f : α → Option β)
    (l : List α) (l2 : List β) (h : optMapM f l = some l2) :
    ∀ b ∈ l2, ∃ a ∈ l, f a = some b := by
  induction l generalizing l2 with
  | nil =>
      unfold optMapM at h
      cases h
      intro b hb
      cases hb
  | cons a as ih =>
      unfold optMapM at h
      cases hfa : f a with
      | none => rw [hfa] at h; simp at h
      | some b0 =>
          cases has : optMapM f as with
          | none => rw [hfa, has] at h; simp at h
          | some bs =>
              rw [hfa, has] at h
              cases h
              intro b hb
              rcases List.mem_cons.mp hb with rfl | hb2
              · exact ⟨a, List.mem_cons_self a as, hfa⟩
              · rcases ih bs has b hb2 with ⟨a2, ha2, hfa2⟩
                exact ⟨a2, List.mem_cons_of_mem a ha2, hfa2⟩

/-- Fixed fields of every row the seeding loop body produces. -/
theorem seedTask_fields (uid aid dur : String) (task : Json) (r : ProgressRow)
    (h : seedTask uid aid dur task = some r) :
    r.analysis_id = aid ∧ r.user_id = uid ∧ r.duration_type = dur ∧
    r.is_completed = false ∧ r.skill_score = 5 ∧ r.updated_at = none := by
  unfold seedTask at h
  cases hd : pyDictGetD task "day" .null with
  | none => rw [hd] at h; simp at h
  | some v =>
      rw [hd] at h
      simp only [Option.map_some'] at h
      cases h
      exact ⟨rfl, rfl, rfl, rfl, rfl, rfl⟩

/-- Fixed fields of every row the full seeding loop produces. -/
theorem buildSeedRows_fields (uid aid : String) (plans : Json) (rows : List ProgressRow)
    (h : buildSeedRows uid aid plans = some rows) :
    ∀ r ∈ rows, r.analysis_id = aid ∧ r.user_id = uid ∧
      r.is_completed = false ∧ r.skill_score = 5 := by
  cases plans with
  | obj ds =>
      have h2 : Option.map List.flatten
          (optMapM (fun p => (pyIter p.2).bind (optMapM (seedTask uid aid p.1))) ds)
          = some rows := h
      clear h
      cases hm : optMapM (fun p => (pyIter p.2).bind (optMapM (seedTask uid aid p.1))) ds with
      | none => rw [hm] at h2; simp at h2
      | some chunks =>
          rw [hm] at h2
          simp only [Option.map_some'] at h2
          cases h2
          intro r hr
          rcases List.mem_flatten.mp hr with ⟨chunk, hc, hrc⟩
          rcases optMapM_mem _ ds chunks hm chunk hc with ⟨p, _, hpc⟩
          cases hit : pyIter p.2 with
          | none => rw [hit] at hpc; simp at hpc
          | some ts =>
              rw [hit] at hpc
              simp only [Option.some_bind] at hpc
              rcases optMapM_mem _ ts chunk hpc r hrc with ⟨t, _, hrt⟩
              rcases seedTask_fields uid aid p.1 t r hrt with ⟨h1, h2, _, h4, h5, _⟩
              exact ⟨h1, h2, h4, h5⟩
  | null => simp [buildSeedRows] at h
  | bool b => simp [buildSeedRows] at h
  | num n => simp [buildSeedRows] at h
  | str s => simp [buildSeedRows] at h
  | arr xs => simp [buildSeedRows] at h

/-- Per-duration chunk lengths of a successful seeding loop. -/
theorem seed_chunk_lengths (uid aid : String) (ds : List (String × Json)) :
    ∀ (chunks : List (List ProgressRow)),
      optMapM (fun p => (pyIter p.2).bind (optMapM (seedTask uid aid p.1))) ds
        = some chunks →
      chunks.map List.length
        = ds.map (fun p => match pyIter p.2 with | some ts => ts.length | none => 0) := by
  induction ds with
  | nil =>
      intro chunks h
      unfold optMapM at h
      cases h
      rfl
  | cons p ps ih =>
      intro chunks h
      unfold optMapM at h
      cases hg : (pyIter p.2).bind (optMapM (seedTask uid aid p.1)) with
      | none => rw [hg] at h; simp at h
      | some chunk =>
          cases hrest : optMapM (fun p => (pyIter p.2).bind (optMapM (seedTask uid aid p.1))) ps with
          | none => rw [hg, hrest] at h; simp at h
          | some chunks2 =>
              rw [hg, hrest] at h
              cases h
              simp only [List.map_cons]
              rw [ih chunks2 hrest]
              have hlen : chunk.length
                  = (match pyIter p.2 with | some ts => ts.length | none => 0) := by
                cases hit : pyIter p.2 with
                | none => rw [hit] at hg; simp at hg
                | some ts =>
                    rw [hit] at hg
                    simp only [Option.some_bind] at hg
                    simp [optMapM_length _ ts chunk hg]
              rw [hlen]

/-- A successful seeding loop produces one row per task. -/
theorem buildSeedRows_length (uid aid : String) (plans : Json) (rows : List ProgressRow)
    (h : buildSeedRows uid aid plans = some rows) :
    rows.length = totalTasks plans := by
  cases plans with
  | obj ds =>
      have h2 : Option.map List.flatten
          (optMapM (fun p => (pyIter p.2).bind (optMapM (seedTask uid aid p.1))) ds)
          = some rows := h
      clear h
      cases hm : optMapM (fun p => (pyIter p.2).bind (optMapM (seedTask uid aid p.1))) ds with
      | none => rw [hm] at h2; simp at h2
      | some chunks =>
          rw [hm] at h2
          simp only [Option.map_some'] at h2
          cases h2
          unfold totalTasks
          rw [List.length_flatten, seed_chunk_lengths uid aid ds chunks hm]
  | null => simp [buildSeedRows] at h
  | bool b => simp [buildSeedRows] at h
  | num n => simp [buildSeedRows] at h
  | str s => simp [buildSeedRows] at h
  | arr xs => simp [buildSeedRows] at h

/-- Upsert of a fresh key appends the row. -/
theorem upsertOne_fresh (tbl : List ProgressRow) (r : ProgressRow)
    (h : ∀ x ∈ tbl, ¬rowKey x = rowKey r) : upsertOne tbl r = tbl ++ [r] := by
  unfold upsertOne
  have hany : ¬tbl.any (fun x => decide (rowKey x = rowKey r)) = true := by
    intro ha
    rcases List.any_eq_true.mp ha with ⟨x, hx, hxk⟩
    exact h x hx (of_decide_eq_true hxk)
  rw [if_neg hany]

/-- Bulk upsert of rows whose keys are fresh for the table (and pairwise
distinct) appends them in order. -/
theorem upsertMany_fresh (rows : List ProgressRow) :
    ∀ tbl : List ProgressRow,
      (∀ r ∈ rows, ∀ x ∈ tbl, ¬rowKey x = rowKey r) →
      (rows.map rowKey).Nodup →
      upsertMany tbl rows = tbl ++ rows := by
  induction rows with
  | nil => intro tbl _ _; simp [upsertMany]
  | cons r rs ih =>
      intro tbl hfresh hnd
      rw [List.map_cons, List.nodup_cons] at hnd
      unfold upsertMany
      rw [List.foldl_cons,
        upsertOne_fresh tbl r (fun x hx => hfresh r (List.mem_cons_self r rs) x hx)]
      have hfresh2 : ∀ q ∈ rs, ∀ x ∈ tbl ++ [r], ¬rowKey x = rowKey q := by
        intro q hq x hx hk
        rcases List.mem_append.mp hx with hx1 | hx2
        · exact hfresh q (List.mem_cons_of_mem r hq) x hx1 hk
        · rw [List.mem_singleton] at hx2
          subst hx2
          apply hnd.1
          rw [hk]
          exact List.mem_map_of_mem rowKey hq
      have hres := ih (tbl ++ [r]) hfresh2 hnd.2
      unfold upsertMany at hres
      rw [hres, List.append_assoc]
      rfl

/-- Every member of an upserted table is an old row or the upserted row. -/
theorem mem_upsertOne (tbl : List ProgressRow) (r y : ProgressRow)
    (hy : y ∈ upsertOne tbl r) : y ∈ tbl ∨ y = r := by
  unfold upsertOne at hy
  by_cases hany : tbl.any (fun x => decide (rowKey x = rowKey r)) = true
  · rw [if_pos hany] at hy
    rcases List.mem_map.mp hy with ⟨x, hx, hxe⟩
    by_cases hxk : rowKey x = rowKey r
    · right; rw [if_pos hxk] at hxe; exact hxe.symm
    · left; rw [if_neg hxk] at hxe; exact hxe ▸ hx
  · rw [if_neg hany] at hy
    rcases List.mem_append.mp hy with h1 | h2
    · exact Or.inl h1
    · right; simpa using h2

/-- Every member of a bulk-upserted table is an old row or a payload row. -/
theorem mem_upsertMany (rows : List ProgressRow) :
    ∀ (tbl : List ProgressRow) (y : ProgressRow),
      y ∈ upsertMany tbl rows → y ∈ tbl ∨ y ∈ rows := by
  induction rows with
  | nil => intro tbl y hy; exact Or.inl hy
  | cons r rs ih =>
      intro tbl y hy
      have hy2 : y ∈ upsertMany (upsertOne tbl r) rs := hy
      rcases ih (upsertOne tbl r) y hy2 with h1 | h2
      · rcases mem_upsertOne tbl r y h1 with h3 | h4
        · exact Or.inl h3
        · exact Or.inr (h4 ▸ List.mem_cons_self r rs)
      · exact Or.inr (List.mem_cons_of_mem r h2)

-- C7 -------------------------------------------------------------------------

/-- A generation result whose single duration bucket holds two tasks with the
same day label. -/
def dupDayGen : Json :=
  .obj [("preparation_plans", .obj
    [("30", .arr [.obj [("day", .str "Day 1"), ("topic", .str "SQL")],
                  .obj [("day", .str "Day 1"), ("topic", .str "Git")]])])]

/-- C7 counterexample: a successful Analyze whose plans hold two tasks with
the same day label in one duration seeds one row, not one row per task —
the bulk upsert's conflict key collapses them. -/
theorem C7_counterexample_duplicate_day_labels_collapse :
    ∃ d2 : DB,
      (analyze (.success dupDayGen) true "a1" 0 "u1" req0 (some emptyDB)).2 = some d2 ∧
      d2.roadmap_progress.length = 1 ∧
      totalTasks (.obj [("30", .arr [.obj [("day", .str "Day 1"), ("topic", .str "SQL")],
                                     .obj [("day", .str "Day 1"), ("topic", .str "Git")]])])
        = 2 := by
  exact ⟨_, rfl, rfl, rfl⟩

/-- C7 (amended): for every successful Analyze call with persistence
configured, the seeding step creates exactly one progress row per distinct
conflict key — hence exactly one row per task whenever day labels are
pairwise distinct within each duration — and every seeded row has
is_completed = false and skill_score = 5. -/
theorem C7_seeding_one_row_per_task
    (fs : List (String × Json)) (newId : String) (now : Nat) (uid : String)
    (req : AnalyzeRequest) (d : DB) (sc : Int) (rows : List ProgressRow)
    (hvalid : req.valid)
    (hnoerr : hasKey (.obj fs) "error" = false)
    (hscore : pyToInt (dictGetD fs "readiness_score" (.num 0)) = some sc)
    (hseed : buildSeedRows uid newId (dictGetD fs "preparation_plans" (.obj []))
      = some rows)
    (hkeys : (rows.map rowKey).Nodup)
    (hfresh : ∀ x ∈ d.roadmap_progress, ¬x.analysis_id = newId) :
    ∃ d2 : DB,
      (analyze (.success (.obj fs)) true newId now uid req (some d)).2 = some d2 ∧
      d2.roadmap_progress.filter (fun r => r.analysis_id == newId) = rows ∧
      rows.length = totalTasks (dictGetD fs "preparation_plans" (.obj [])) ∧
      ∀ r ∈ rows, r.is_completed = false ∧ r.skill_score = 5 := by
  have hshape := analyze_success_shape fs newId now uid req d sc rows hnoerr hscore hseed
  have hflds := buildSeedRows_fields uid newId _ rows hseed
  refine ⟨_, by rw [hshape], ?_, buildSeedRows_length uid newId _ rows hseed, ?_⟩
  · show (if rows.isEmpty then d.roadmap_progress
        else upsertMany d.roadmap_progress rows).filter
        (fun r => r.analysis_id == newId) = rows
    have hd1 : d.roadmap_progress.filter (fun r => r.analysis_id == newId) = [] :=
      List.filter_eq_nil_iff.mpr (fun x hx => by simp [hfresh x hx])
    by_cases he : rows.isEmpty = true
    · rw [if_pos he, hd1]
      exact (List.isEmpty_iff.mp he).symm
    · rw [if_neg he]
      have hfr2 : ∀ r ∈ rows, ∀ x ∈ d.roadmap_progress, ¬rowKey x = rowKey r := by
        intro r hr x hx hk
        have h1 := (hflds r hr).1
        have h2 : x.analysis_id = r.analysis_id := congrArg (fun k => k.2.1) hk
        exact hfresh x hx (h2.trans h1)
      rw [upsertMany_fresh rows d.roadmap_progress hfr2 hkeys, List.filter_append, hd1]
      rw [List.filter_eq_self.mpr (fun r hr => by simp [(hflds r hr).1])]
      rfl
  · intro r hr
    exact ⟨(hflds r hr).2.2.1, (hflds r hr).2.2.2⟩

/-- Witness for C7 (amended) at a fully schema-conformant generation result
(three tasks, pairwise-distinct day labels per duration). -/
theorem C7_seeding_one_row_per_task_witness :
    ∃ d2 : DB,
      (analyze (.success (.obj fullGenFields)) true "a1" 0 "u1" req0 (some emptyDB)).2
        = some d2 ∧
      d2.roadmap_progress.filter (fun r => r.analysis_id == "a1") = fullSeedRows ∧
      fullSeedRows.length
        = totalTasks (dictGetD fullGenFields "preparation_plans" (.obj [])) ∧
      ∀ r ∈ fullSeedRows, r.is_completed = false ∧ r.skill_score = 5 :=
  C7_seeding_one_row_per_task fullGenFields "a1" 0 "u1" req0 emptyDB 72 fullSeedRows
    (by show 50 ≤ req0.resume_text.length; decide) (by rfl) (by rfl) (by rfl)
    (by decide) (by decide)

-- C8 -------------------------------------------------------------------------

/-- The progress update of the C8 counterexample, referencing an analysis id
that does not exist in the store. -/
def ghostUpd : ProgressUpdate :=
  { analysis_id := "ghost", day_label := "Day 1", is_completed := true,
    duration_type := "30", skill_score := 3 }

/-- C8 counterexample: UpdateProgress performs no referential validation of
the caller-supplied analysis id — on an empty store it creates a progress
row referencing an analysis that does not exist. -/
theorem C8_counterexample_unvalidated_reference :
    ∃ d1 : DB,
      (update_progress "u1" ghostUpd (some emptyDB)).2 = some d1 ∧
      (∃ r ∈ d1.roadmap_progress, r.analysis_id = "ghost") ∧
      d1.analyses = [] := by
  exact ⟨_, rfl,
    ⟨mkUpdRow "u1" ghostUpd,
     self_mem_upsertOne emptyDB.roadmap_progress (mkUpdRow "u1" ghostUpd), rfl⟩, rfl⟩

/-- C8 (amended): the rows seeded by a successful Analyze always reference
the analysis row created in the same call and carry its owner's user id; but
the orchestration layer does not enforce the invariant on every write —
UpdateProgress upserts a caller-supplied analysis id without existence or
ownership validation, so the invariant holds only if the persistence store
enforces it. -/
theorem C8_seeded_rows_reference_owner
    (fs : List (String × Json)) (newId : String) (now : Nat) (uid : String)
    (req : AnalyzeRequest) (d : DB) (sc : Int) (rows : List ProgressRow)
    (hnoerr : hasKey (.obj fs) "error" = false)
    (hscore : pyToInt (dictGetD fs "readiness_score" (.num 0)) = some sc)
    (hseed : buildSeedRows uid newId (dictGetD fs "preparation_plans" (.obj []))
      = some rows)
    (hfresh : ∀ x ∈ d.roadmap_progress, ¬x.analysis_id = newId) :
    ∃ d2 : DB,
      (analyze (.success (.obj fs)) true newId now uid req (some d)).2 = some d2 ∧
      (∃ a ∈ d2.analyses, a.id = newId ∧ a.user_id = uid) ∧
      ∀ r ∈ d2.roadmap_progress, r.analysis_id = newId → r.user_id = uid := by
  have hshape := analyze_success_shape fs newId now uid req d sc rows hnoerr hscore hseed
  have hflds := buildSeedRows_fields uid newId _ rows hseed
  refine ⟨_, by rw [hshape], ?_, ?_⟩
  · exact ⟨mkAnalysisRow fs newId now uid req sc, by simp, rfl, rfl⟩
  · intro r hr hrid
    have hr2 : r ∈ (if rows.isEmpty then d.roadmap_progress
        else upsertMany d.roadmap_progress rows) := hr
    by_cases he : rows.isEmpty = true
    · rw [if_pos he] at hr2
      exact absurd hrid (hfresh r hr2)
    · rw [if_neg he] at hr2
      rcases mem_upsertMany rows d.roadmap_progress r hr2 with h1 | h2
      · exact absurd hrid (hfresh r h1)
      · exact (hflds r h2).2.1

/-- Witness for C8 (amended) at a fully schema-conformant generation result. -/
theorem C8_seeded_rows_reference_owner_witness :
    ∃ d2 : DB,
      (analyze (.success (.obj fullGenFields)) true "a1" 0 "u1" req0 (some emptyDB)).2
        = some d2 ∧
      (∃ a ∈ d2.analyses, a.id = "a1" ∧ a.user_id = "u1") ∧
      ∀ r ∈ d2.roadmap_progress, r.analysis_id = "a1" → r.user_id = "u1" :=
  C8_seeded_rows_reference_owner fullGenFields "a1" 0 "u1" req0 emptyDB 72 fullSeedRows
    (by rfl) (by rfl) (by rfl) (by decide)

-- C10 ------------------------------------------------------------------------

/-- A generation result whose single duration bucket holds two tasks that
both lack the `day` field. -/
def noDayGen : Json :=
  .obj [("preparation_plans", .obj
    [("30", .arr [.obj [("topic", .str "SQL")], .obj [("topic", .str "Git")]])])]

/-- C10: each seeded row's day label is the Python stringification of the
task's `day` field — a task lacking the field is labelled with the literal
string `"None"` — so two tasks of one duration with equal (or equally
absent) day values share a conflict key and collapse to one row under the
bulk upsert: concretely, two day-less tasks seed a single `"None"`-labelled
row. -/
theorem C10_day_label_stringification_and_collapse :
    (∀ (uid aid dur : String) (task v : Json),
        pyDictGetD task "day" .null = some v →
        seedTask uid aid dur task =
          some { analysis_id := aid, user_id := uid, day_label := pyStr v,
                 duration_type := dur, is_completed := false, skill_score := 5,
                 updated_at := none }) ∧
    pyStr .null = "None" ∧
    (∀ (uid aid dur : String) (t1 t2 : Json) (r1 r2 : ProgressRow),
        seedTask uid aid dur t1 = some r1 → seedTask uid aid dur t2 = some r2 →
        r1.day_label = r2.day_label → rowKey r1 = rowKey r2) ∧
    (∃ d2 : DB,
        (analyze (.success noDayGen) true "a1" 0 "u1" req0 (some emptyDB)).2 = some d2 ∧
        d2.roadmap_progress =
          [{ analysis_id := "a1", user_id := "u1", day_label := "None",
             duration_type := "30", is_completed := false, skill_score := 5,
             updated_at := none }] ∧
        totalTasks (.obj [("30", .arr [.obj [("topic", .str "SQL")],
                                       .obj [("topic", .str "Git")]])]) = 2) := by
  refine ⟨?_, rfl, ?_, ⟨_, rfl, rfl, rfl⟩⟩
  · intro uid aid dur task v h
    unfold seedTask
    rw [h]
    rfl
  · intro uid aid dur t1 t2 r1 r2 h1 h2 hlab
    rcases seedTask_fields uid aid dur t1 r1 h1 with ⟨a1, b1, c1, _, _, _⟩
    rcases seedTask_fields uid aid dur t2 r2 h2 with ⟨a2, b2, c2, _, _, _⟩
    unfold rowKey
    rw [a1, a2, b1, b2, c1, c2, hlab]

/-- Witness for C10 at a concrete day-less task. -/
theorem C10_day_label_stringification_and_collapse_witness :
    seedTask "u9" "a9" "60" (.obj [("topic", .str "Vim")]) =
      some { analysis_id := "a9", user_id := "u9", day_label := pyStr .null,
             duration_type := "60", is_completed := false, skill_score := 5,
             updated_at := none } :=
  C10_day_label_stringification_and_collapse.1 "u9" "a9" "60"
    (.obj [("topic", .str "Vim")]) .null (by rfl)

end CareerGPT
